import Mathlib

/-!
Verification development for the housekeeping and configuration-reload core of
the mail server, plus its Sieve-script manager.  The definitions below are a
shallow embedding of, in order:

* `crates/jmap/src/services/housekeeper.rs` (action queue and scheduler loop),
* `crates/jmap/src/api/management/reload.rs` (`handle_manage_reload`),
* `crates/jmap/src/sieve/set.rs` (create quota, destroy, `sieve_activate_script`).

Monotonic instants and durations are modelled as natural numbers of seconds.
Worker tasks only perform side effects outside the scheduler state, so the
scheduler model tracks the queue and `next_metric_update`; cron schedules are
modelled as functions from the current instant to the delay they return.
-/

namespace Housekeeper

/-- Mirrors `enum ActionClass` in housekeeper.rs (enterprise variants included;
the model keeps the enterprise configuration optional, mirroring the runtime
`Option`-typed enterprise block). -/
inductive ActionClass where
  | Session
  | Account
  | Store (idx : Nat)
  | Acme (id : String)
  | OtelMetrics
  | InternalMetrics
  | CalculateMetrics
  | AlertMetrics
  | ValidateLicense
deriving DecidableEq

/-- Mirrors `struct Action { due: Instant, event: ActionClass }`.  The Rust
struct derives `PartialEq, Eq`, i.e. structural equality over both fields,
which is exactly Lean's propositional equality on this structure. -/
structure Action where
  due : Nat
  event : ActionClass
deriving DecidableEq

namespace Queue

/-- `Queue::schedule`: push the action onto the heap.  The heap is modelled as
the list of its elements in insertion order; ordering is restored by `popMin`. -/
def schedule (q : List Action) (due : Nat) (event : ActionClass) : List Action :=
  q ++ [{ due := due, event := event }]

/-- `Queue::remove_action`: `self.heap.retain(|e| &e.event != event)`. -/
def remove_action (q : List Action) (event : ActionClass) : List Action :=
  q.filter fun a => a.event != event

/-- `Queue::has_action`: `self.heap.iter().any(|e| &e.event == event)`. -/
def has_action (q : List Action) (event : ActionClass) : Bool :=
  q.any fun a => a.event == event

/-- Extract an element with minimal `due` (the heap's peek/pop pair; ties are
broken deterministically in favour of the earliest-inserted element). -/
def popMin : List Action → Option (Action × List Action)
  | [] => none
  | a :: rest =>
    match popMin rest with
    | none => some (a, rest)
    | some (b, rest2) => if a.due ≤ b.due then some (a, rest) else some (b, a :: rest2)

/-- `Queue::pop`: return the earliest action only if its due time has passed. -/
def pop (q : List Action) (now : Nat) : Option (Action × List Action) :=
  match popMin q with
  | some (a, rest) => if a.due ≤ now then some (a, rest) else none
  | none => none

end Queue

/-- Number of queued entries of a given class. -/
def countClass (c : ActionClass) (q : List Action) : Nat :=
  (q.filter fun a => a.event == c).length

/-- Enterprise part of the server snapshot, as read by the scheduler loop. -/
structure EnterpriseCfg where
  license_expires_in : Nat → Nat
  metrics_interval : Option (Nat → Nat)
  has_alerts : Bool

/-- The parts of the shared-core snapshot read by the scheduler loop.  Cron
schedules (`time_to_next`) are functions of the instant at which they are
queried. -/
structure ServerCfg where
  session_purge_next : Nat → Nat
  account_purge_next : Nat → Nat
  store_purge_next : List (Nat → Nat)
  otel_interval : Option Nat
  enterprise : Option EnterpriseCfg

/-- Scheduler-loop state: the action queue plus `next_metric_update`. -/
structure HKState where
  queue : List Action
  next_metric_update : Nat
deriving DecidableEq

/-- Store purges seeded in order, one `ActionClass::Store(idx)` per configured
purge schedule. -/
def scheduleStores (t0 : Nat) (fs : List (Nat → Nat)) (idx : Nat) (q : List Action) : List Action :=
  match fs with
  | [] => q
  | f :: rest => scheduleStores t0 rest (idx + 1) (Queue.schedule q (t0 + f t0) (ActionClass.Store idx))

/-- Initial seeding performed by `spawn_housekeeper` before the main loop, in
source order: Session, Account, per-store purges, OTEL push metrics (if
configured), CalculateMetrics at `now`, one Acme entry per provider whose
`init_acme` succeeded, then the enterprise entries.  `acme_init` carries, per
provider, `some renew_delay` on success and `none` on failure. -/
def hkSeed (cfg : ServerCfg) (acme_init : List (String × Option Nat)) (t0 : Nat) : HKState :=
  let q := Queue.schedule [] (t0 + cfg.session_purge_next t0) ActionClass.Session
  let q := Queue.schedule q (t0 + cfg.account_purge_next t0) ActionClass.Account
  let q := scheduleStores t0 cfg.store_purge_next 0 q
  let q := match cfg.otel_interval with
    | some i => Queue.schedule q (t0 + i) ActionClass.OtelMetrics
    | none => q
  let q := Queue.schedule q t0 ActionClass.CalculateMetrics
  let q := acme_init.foldl (fun q p =>
    match p.2 with
    | some renew => Queue.schedule q (t0 + renew) (ActionClass.Acme p.1)
    | none => q) q
  let q := match cfg.enterprise with
    | some e =>
      let q := Queue.schedule q (t0 + e.license_expires_in t0) ActionClass.ValidateLicense
      let q := match e.metrics_interval with
        | some f => Queue.schedule q (t0 + f t0) ActionClass.InternalMetrics
        | none => q
      if e.has_alerts then Queue.schedule q (t0 + 300) ActionClass.AlertMetrics else q
    | none => q
  { queue := q, next_metric_update := t0 }

/-- `HousekeeperEvent::ReloadSettings` handling: re-arm OTEL push metrics and
the enterprise actions, each guarded by `has_action`; AlertMetrics is scheduled
at `now` itself, as in the source. -/
def handleReloadSettings (now : Nat) (cfg : ServerCfg) (s : HKState) : HKState :=
  let q := s.queue
  let q := match cfg.otel_interval with
    | some i => if Queue.has_action q ActionClass.OtelMetrics then q
                else Queue.schedule q (now + i) ActionClass.OtelMetrics
    | none => q
  let q := match cfg.enterprise with
    | some e =>
      let q := if Queue.has_action q ActionClass.ValidateLicense then q
               else Queue.schedule q (now + e.license_expires_in now) ActionClass.ValidateLicense
      let q := match e.metrics_interval with
        | some f => if Queue.has_action q ActionClass.InternalMetrics then q
                    else Queue.schedule q (now + f now) ActionClass.InternalMetrics
        | none => q
      if e.has_alerts && !(Queue.has_action q ActionClass.AlertMetrics) then
        Queue.schedule q now ActionClass.AlertMetrics
      else q
    | none => q
  { s with queue := q }

/-- `HousekeeperEvent::AcmeReschedule { provider_id, renew_at }`: remove any
existing entry for the provider, then schedule at `renew_at`. -/
def handleAcmeReschedule (provider_id : String) (renew_at : Nat) (s : HKState) : HKState :=
  { s with queue := Queue.schedule (Queue.remove_action s.queue (ActionClass.Acme provider_id))
                      renew_at (ActionClass.Acme provider_id) }

/-- Dispatch of one expired action popped by the timeout branch of the main
loop; only the effect on the scheduler state is modelled (worker tasks run
outside it).  `license_renew` is the outcome of the `reload()` performed by the
ValidateLicense worker: `some d` when it returned a new core with an enterprise
block whose license expires in `d`, `none` otherwise.  Note the source of the
CalculateMetrics arm (housekeeper.rs:480-485): it schedules
`ActionClass::OtelMetrics`, not `ActionClass::CalculateMetrics`. -/
def dispatchAction (now : Nat) (cfg : ServerCfg) (license_renew : Option Nat)
    (a : Action) (s : HKState) : HKState :=
  match a.event with
  | ActionClass.Acme _ => s
  | ActionClass.Account =>
    { s with queue := Queue.schedule s.queue (now + cfg.account_purge_next now) ActionClass.Account }
  | ActionClass.Session =>
    { s with queue := Queue.schedule s.queue (now + cfg.session_purge_next now) ActionClass.Session }
  | ActionClass.Store idx =>
    match cfg.store_purge_next.get? idx with
    | some f => { s with queue := Queue.schedule s.queue (now + f now) (ActionClass.Store idx) }
    | none => s
  | ActionClass.OtelMetrics =>
    match cfg.otel_interval with
    | some i => { s with queue := Queue.schedule s.queue (now + i) ActionClass.OtelMetrics }
    | none => s
  | ActionClass.CalculateMetrics =>
    { queue := Queue.schedule s.queue (now + 300) ActionClass.OtelMetrics,
      next_metric_update :=
        if s.next_metric_update ≤ now then now + 86400 else s.next_metric_update }
  | ActionClass.InternalMetrics =>
    match cfg.enterprise.bind (fun e => e.metrics_interval) with
    | some f => { s with queue := Queue.schedule s.queue (now + f now) ActionClass.InternalMetrics }
    | none => s
  | ActionClass.AlertMetrics => s
  | ActionClass.ValidateLicense =>
    match license_renew with
    | some d => { s with queue := Queue.schedule s.queue (now + d) ActionClass.ValidateLicense }
    | none => s

/-- The timeout branch: `while let Some(event) = queue.pop() { dispatch }`.
The Boolean is `true` when the drain ran to completion (pop returned `none`)
within the given fuel; the model freezes the clock at `now` for the whole
drain. -/
def drain (fuel : Nat) (now : Nat) (cfg : ServerCfg) (license_renew : Option Nat)
    (s : HKState) : HKState × Bool :=
  match fuel with
  | 0 => (s, false)
  | Nat.succ n =>
    match Queue.pop s.queue now with
    | none => (s, true)
    | some (a, q) => drain n now cfg license_renew (dispatchAction now cfg license_renew a { s with queue := q })

/-- Reachable scheduler states: initial seeding followed by any sequence of
control events and completed timeout drains.  The configuration is re-read
(`inner.build_server()`) at each loop iteration, hence a per-step `cfg`. -/
inductive HKReachable : HKState → Prop where
  | init (cfg : ServerCfg) (acme_init : List (String × Option Nat)) (t0 : Nat) :
      HKReachable (hkSeed cfg acme_init t0)
  | reloadSettings (now : Nat) (cfg : ServerCfg) (s : HKState) :
      HKReachable s → HKReachable (handleReloadSettings now cfg s)
  | acmeReschedule (provider_id : String) (renew_at : Nat) (s : HKState) :
      HKReachable s → HKReachable (handleAcmeReschedule provider_id renew_at s)
  | timeout (fuel now : Nat) (cfg : ServerCfg) (license_renew : Option Nat) (s : HKState) :
      HKReachable s → (drain fuel now cfg license_renew s).2 = true →
      HKReachable (drain fuel now cfg license_renew s).1

/-- Minimal configuration: no store purges, no OTEL, no enterprise block. -/
def hkCfgBase : ServerCfg :=
  { session_purge_next := fun _ => 1000
    account_purge_next := fun _ => 1000
    store_purge_next := []
    otel_interval := none
    enterprise := none }

/-- Same configuration with OTEL push metrics configured at a 3600s interval. -/
def hkCfgOtel : ServerCfg :=
  { hkCfgBase with otel_interval := some 3600 }

end Housekeeper

namespace Reload

/-- Report returned by the reload engine: diagnostics, an optional new core
snapshot, and an optional tracer bundle.  Diagnostics, cores and tracers are
opaque payloads, modelled as naturals. -/
structure ReloadReport where
  config : Nat
  new_core : Option Nat
  tracers : Option Nat
deriving DecidableEq

/-- Messages delivered on the housekeeper control channel by this handler. -/
inductive HMsg where
  | reloadSettings
deriving DecidableEq

/-- Errors surfaced by `handle_manage_reload`. -/
inductive ApiError where
  | notFound
  | noPermission
  | reloadFailed
  | sendFailed
deriving DecidableEq

/-- Request method; only GET is routed by this handler. -/
inductive HMethod where
  | GET
  | other
deriving DecidableEq

/-- The mutable server state touched by the handler: the swappable core, the
two version counters, the applied tracer bundles, and the messages delivered
to the housekeeper channel. -/
structure ServerState where
  shared_core : Nat
  config_version : Nat
  blocked_ip_version : Nat
  tracers_applied : List Nat
  sent : List HMsg
deriving DecidableEq

/-- `Server::increment_config_version`. -/
def increment_config_version (s : ServerState) : ServerState :=
  { s with config_version := s.config_version + 1 }

/-- `Server::increment_blocked_version`. -/
def increment_blocked_version (s : ServerState) : ServerState :=
  { s with blocked_ip_version := s.blocked_ip_version + 1 }

/-- `handle_manage_reload` from reload.rs.  `perm` is the outcome of the
`SettingsReload` permission check; `res` is the outcome of whichever reload
engine call the matched path performs (`reload_lookups`, `reload_certificates`,
`reload_blocked_ips` or `reload`); `dry_run` is whether the query string has
the `dry-run` key; `send_ok` is whether the channel send to the housekeeper
succeeds.  Returns the response (diagnostics payload or error) and the
resulting server state. -/
def handle_manage_reload (perm : Bool) (method : HMethod) (path : Option String)
    (res : Except Unit ReloadReport) (dry_run : Bool) (send_ok : Bool)
    (s : ServerState) : Except ApiError Nat × ServerState :=
  if !perm then (Except.error ApiError.noPermission, s)
  else
    match path, method with
    | some "lookup", HMethod.GET =>
      match res with
      | Except.error _ => (Except.error ApiError.reloadFailed, s)
      | Except.ok r =>
        let s2 := match r.new_core with
          | some core => { s with shared_core := core }
          | none => s
        (Except.ok r.config, s2)
    | some "certificate", HMethod.GET =>
      match res with
      | Except.error _ => (Except.error ApiError.reloadFailed, s)
      | Except.ok r => (Except.ok r.config, s)
    | some "server.blocked-ip", HMethod.GET =>
      match res with
      | Except.error _ => (Except.error ApiError.reloadFailed, s)
      | Except.ok r => (Except.ok r.config, increment_blocked_version s)
    | _, HMethod.GET =>
      match res with
      | Except.error _ => (Except.error ApiError.reloadFailed, s)
      | Except.ok r =>
        if dry_run then (Except.ok r.config, s)
        else
          let s2 := match r.new_core with
            | some core => increment_config_version { s with shared_core := core }
            | none => s
          let s3 := match r.tracers with
            | some t => { s2 with tracers_applied := s2.tracers_applied ++ [t] }
            | none => s2
          if send_ok then (Except.ok r.config, { s3 with sent := s3.sent ++ [HMsg.reloadSettings] })
          else (Except.error ApiError.sendFailed, s3)
    | _, _ => (Except.error ApiError.notFound, s)

end Reload

namespace Sieve

/-- The part of a stored sieve `Object<Value>` relevant here: the `IsActive`
flag and the script name. -/
structure ScriptValue where
  isActive : Bool
  name : String
deriving DecidableEq

/-- Per-document persisted properties: the `Value` object and the `EmailIds`
property. -/
structure DocProps where
  value : Option ScriptValue
  emailIds : Option (List Nat)
deriving DecidableEq

/-- The account's `SieveScript` collection: document id to properties. -/
abbrev SieveStore := List (Nat × DocProps)

/-- Outcome of the store commit of a batch, as seen by the caller. -/
inductive CommitOutcome where
  | success
  | assertFailed
  | otherError
deriving DecidableEq

/-- The method error surfaced by the sieve manager on non-assertion store
failures. -/
inductive MethodError where
  | serverPartialFail
deriving DecidableEq

/-- Per-id outcome of a create in `sieve_script_set` (errors other than the
quota rejection are collapsed into `otherError`). -/
inductive CreateResult where
  | created (id : Nat)
  | overQuota
  | otherError
deriving DecidableEq

/-- Per-id outcome of a destroy in `sieve_script_set`. -/
inductive DestroyResult where
  | destroyed
  | notFound
  | scriptIsActive
deriving DecidableEq

/-- The create loop of `sieve_script_set` (set.rs:71-117): for each creation,
if `sieve_ids.len() <= max_scripts` run `sieve_set_item` (its success is the
per-item Boolean; a fresh document id is assigned and inserted into
`sieve_ids` on success), otherwise reject with `OverQuota`.  Returns the final
`sieve_ids`, the next fresh document id, and the per-item results.  Store
writes are assumed to succeed (their failure aborts the whole request and is
outside this claim). -/
def sieve_process_creates (max_scripts : Nat) :
    List Bool → List Nat → Nat → List Nat × Nat × List CreateResult
  | [], sieve_ids, next_id => (sieve_ids, next_id, [])
  | item_ok :: rest, sieve_ids, next_id =>
    if sieve_ids.length ≤ max_scripts then
      if item_ok then
        let r := sieve_process_creates max_scripts rest (sieve_ids ++ [next_id]) (next_id + 1)
        (r.1, r.2.1, CreateResult.created next_id :: r.2.2)
      else
        let r := sieve_process_creates max_scripts rest sieve_ids next_id
        (r.1, r.2.1, CreateResult.otherError :: r.2.2)
    else
      let r := sieve_process_creates max_scripts rest sieve_ids next_id
      (r.1, r.2.1, CreateResult.overQuota :: r.2.2)

/-- The documents whose `Value` object has `IsActive = true` (the filtered
query `Filter::eq(Property::IsActive, 1)`; the index is maintained from the
stored object). -/
def active_ids (store : SieveStore) : List Nat :=
  (store.filter fun p =>
    match p.2.value with
    | some v => v.isActive
    | none => false).map Prod.fst

/-- The `IsActive` check of the destroy loop: the stored `Value` object exists
and carries `IsActive = true`. -/
def is_active_doc (store : SieveStore) (id : Nat) : Bool :=
  match (store.lookup id).bind (fun d => d.value) with
  | some v => v.isActive
  | none => false

/-- `sieve_script_delete` (set.rs:276-298): delete the document (clearing its
`Value` and `EmailIds`), then delete the linked blob best-effort: `blob_ok`
tells whether the blob-store delete succeeded, and its failure is ignored.
Blobs are keyed by the document id (account and collection are fixed). -/
def sieve_script_delete (store : SieveStore) (blobs : List Nat) (blob_ok : Bool)
    (id : Nat) : SieveStore × List Nat :=
  (store.filter fun p => p.1 != id,
   if blob_ok then blobs.filter (fun b => b != id) else blobs)

/-- One iteration of the destroy loop of `sieve_script_set` (set.rs:204-232):
unknown ids are rejected `NotFound`, active scripts are rejected
`ScriptIsActive`, otherwise the script is deleted via `sieve_script_delete`
and reported destroyed. -/
def sieve_process_destroy (sieve_ids : List Nat) (store : SieveStore) (blobs : List Nat)
    (blob_ok : Bool) (id : Nat) : DestroyResult × SieveStore × List Nat :=
  if sieve_ids.contains id then
    if is_active_doc store id then (DestroyResult.scriptIsActive, store, blobs)
    else
      let r := sieve_script_delete store blobs blob_ok id
      (DestroyResult.destroyed, r.1, r.2)
  else (DestroyResult.notFound, store, blobs)

/-- Deactivation half of the batch built by `sieve_activate_script`: one
`(document_id, false)` entry per currently-active script whose `Value` object
could be loaded. -/
def deact_list (store : SieveStore) : List (Nat × Bool) :=
  (active_ids store).filterMap fun i =>
    match (store.lookup i).bind (fun d => d.value) with
    | some _ => some (i, false)
    | none => none

/-- Activation half of the batch: `(activate_id, true)` when the target's
`Value` object could be loaded. -/
def act_list (store : SieveStore) (activate_id : Option Nat) : List (Nat × Bool) :=
  match activate_id with
  | some i =>
    match (store.lookup i).bind (fun d => d.value) with
    | some _ => [(i, true)]
    | none => []
  | none => []

/-- The `changed_ids` accumulated by `sieve_activate_script`. -/
def changed_ids (store : SieveStore) (activate_id : Option Nat) : List (Nat × Bool) :=
  deact_list store ++ act_list store activate_id

/-- Document ids deactivated by the batch. -/
def deact_doc_ids (store : SieveStore) : List Nat :=
  (deact_list store).map Prod.fst

/-- Effect of a successful commit of the activation batch: each deactivated
document gets `IsActive = false` and its `EmailIds` cleared; the activated
document gets `IsActive = true`. -/
def apply_activate_batch (store : SieveStore) (deact : List Nat)
    (activate_id : Option Nat) : SieveStore :=
  store.map fun p =>
    if deact.contains p.1 then
      (p.1, { value := p.2.value.map (fun v => { v with isActive := false }),
              emailIds := none })
    else if activate_id = some p.1 then
      (p.1, { p.2 with value := p.2.value.map fun v => { v with isActive := true } })
    else p

/-- The early-return guard of `sieve_activate_script`:
`activate_id.map_or(false, |id| active_ids.contains(id))`. -/
def already_active (store : SieveStore) (activate_id : Option Nat) : Bool :=
  match activate_id with
  | some i => (active_ids store).contains i
  | none => false

/-- `sieve_activate_script` (set.rs:452-550).  `commit` is the store's verdict
on the batch write; it is only consulted when a non-empty batch is actually
committed. -/
def sieve_activate_script (store : SieveStore) (activate_id : Option Nat)
    (commit : CommitOutcome) : Except MethodError (List (Nat × Bool)) × SieveStore :=
  if already_active store activate_id then
    (Except.ok [], store)
  else
    let changed := changed_ids store activate_id
    if changed.isEmpty then (Except.ok changed, store)
    else
      match commit with
      | CommitOutcome.success =>
        (Except.ok changed, apply_activate_batch store (deact_doc_ids store) activate_id)
      | CommitOutcome.assertFailed => (Except.ok [], store)
      | CommitOutcome.otherError => (Except.error MethodError.serverPartialFail, store)

end Sieve

namespace Housekeeper

/-- Claim C4, counterexample: the claimed equivalence "Action{d1,c1} =
Action{d2,c2} iff c1 = c2" fails at d1 = 0, d2 = 1, c1 = c2 = Session, because
the derived equality on `Action` compares the `due` field as well. -/
theorem c4_action_eq_counterexample :
    ¬ ((Action.mk 0 ActionClass.Session = Action.mk 1 ActionClass.Session) ↔
       (ActionClass.Session = ActionClass.Session)) := by
  decide

/-- Claim C4, amended: equality on queued `Action` values is structural over
both the due time and the class (the derive compares every field); still,
`has_action c` returns true iff some queued entry has class `c`, and
`remove_action c` removes exactly the queued entries of class `c`, regardless
of their due times, because both operations compare the `event` field
directly. -/
theorem c4_action_eq_and_class_ops :
    (∀ a b : Action, a = b ↔ (a.due = b.due ∧ a.event = b.event))
    ∧ (∀ (q : List Action) (c : ActionClass),
        Queue.has_action q c = true ↔ ∃ x ∈ q, x.event = c)
    ∧ (∀ (q : List Action) (c : ActionClass) (x : Action),
        x ∈ Queue.remove_action q c ↔ (x ∈ q ∧ x.event ≠ c)) := by
  refine ⟨?_, ?_, ?_⟩
  · intro a b
    cases a
    cases b
    simp
  · intro q c
    simp [Queue.has_action, List.any_eq_true, beq_iff_eq]
  · intro q c x
    simp [Queue.remove_action, List.mem_filter, bne_iff_ne]

/-- Claim C1: dispatching an expired CalculateMetrics action enqueues an
`OtelMetrics` action due `now + 300`, not a `CalculateMetrics` one (the first
conjunct is the general dispatch equation; the remaining conjuncts evaluate a
seeded scheduler through its first completed drain: the drain completes, no
CalculateMetrics entry remains queued, and an OtelMetrics entry due at 300 is
queued instead).  This contradicts the claim and the code's own comment
"Calculate expensive metrics every 5 minutes". -/
theorem c1_calculate_metrics_dispatch_schedules_otel :
    (∀ (now : Nat) (cfg : ServerCfg) (lr : Option Nat) (d : Nat) (s : HKState),
      (dispatchAction now cfg lr { due := d, event := ActionClass.CalculateMetrics } s).queue
        = Queue.schedule s.queue (now + 300) ActionClass.OtelMetrics)
    ∧ (drain 2 0 hkCfgBase none (hkSeed hkCfgBase [] 0)).2 = true
    ∧ countClass ActionClass.CalculateMetrics
        (drain 2 0 hkCfgBase none (hkSeed hkCfgBase [] 0)).1.queue = 0
    ∧ ({ due := 300, event := ActionClass.OtelMetrics } : Action)
        ∈ (drain 2 0 hkCfgBase none (hkSeed hkCfgBase [] 0)).1.queue := by
  refine ⟨fun now cfg lr d s => rfl, by decide, by decide, by decide⟩

/-- Claim C2: a reachable scheduler state whose queue holds two entries of
class OtelMetrics, violating the at-most-one-entry-per-class invariant.  With
OTEL push metrics configured, seeding queues OtelMetrics at the configured
interval and CalculateMetrics at `now`; the first timeout drain dispatches
CalculateMetrics, which enqueues a second OtelMetrics entry. -/
theorem c2_duplicate_otel_metrics_reachable :
    HKReachable (drain 2 0 hkCfgOtel none (hkSeed hkCfgOtel [] 0)).1
    ∧ (drain 2 0 hkCfgOtel none (hkSeed hkCfgOtel [] 0)).2 = true
    ∧ 1 < countClass ActionClass.OtelMetrics
        (drain 2 0 hkCfgOtel none (hkSeed hkCfgOtel [] 0)).1.queue := by
  refine ⟨HKReachable.timeout 2 0 hkCfgOtel none (hkSeed hkCfgOtel [] 0)
      (HKReachable.init hkCfgOtel [] 0) (by decide), by decide, by decide⟩

end Housekeeper

namespace Reload

/-- Claim C5: on a GET /reload carrying the dry-run parameter, the server
state is returned untouched — no core swap, no `config_version` increment, no
tracer application, no `ReloadSettings` send — whatever the reload engine
returned and whether or not the channel send would have succeeded; when the
reload succeeded, the response is exactly its diagnostics. -/
theorem c5_reload_dry_run_no_effects :
    (∀ (res : Except Unit ReloadReport) (send_ok : Bool) (s : ServerState),
      (handle_manage_reload true HMethod.GET none res true send_ok s).2 = s)
    ∧ (∀ (r : ReloadReport) (send_ok : Bool) (s : ServerState),
      (handle_manage_reload true HMethod.GET none (Except.ok r) true send_ok s).1
        = Except.ok r.config) := by
  constructor
  · intro res send_ok s
    cases res <;> rfl
  · intro r send_ok s
    rfl

/-- Claim C6: a successful non-dry-run GET /reload whose report contains a new
snapshot stores the snapshot into the shared core, increments
`config_version` exactly once and delivers exactly one `ReloadSettings`
message; when the channel send fails the call returns an error, but the new
core remains installed and the version increment stands (no rollback), and no
message was delivered. -/
theorem c6_reload_swap_and_notify :
    ∀ (d c : Nat) (tr : Option Nat) (s : ServerState),
      (handle_manage_reload true HMethod.GET none
          (Except.ok { config := d, new_core := some c, tracers := tr }) false true s).2.shared_core = c
      ∧ (handle_manage_reload true HMethod.GET none
          (Except.ok { config := d, new_core := some c, tracers := tr }) false true s).2.config_version
          = s.config_version + 1
      ∧ (handle_manage_reload true HMethod.GET none
          (Except.ok { config := d, new_core := some c, tracers := tr }) false true s).2.sent
          = s.sent ++ [HMsg.reloadSettings]
      ∧ (handle_manage_reload true HMethod.GET none
          (Except.ok { config := d, new_core := some c, tracers := tr }) false true s).1
          = Except.ok d
      ∧ (handle_manage_reload true HMethod.GET none
          (Except.ok { config := d, new_core := some c, tracers := tr }) false false s).1
          = Except.error ApiError.sendFailed
      ∧ (handle_manage_reload true HMethod.GET none
          (Except.ok { config := d, new_core := some c, tracers := tr }) false false s).2.shared_core = c
      ∧ (handle_manage_reload true HMethod.GET none
          (Except.ok { config := d, new_core := some c, tracers := tr }) false false s).2.config_version
          = s.config_version + 1
      ∧ (handle_manage_reload true HMethod.GET none
          (Except.ok { config := d, new_core := some c, tracers := tr }) false false s).2.sent
          = s.sent := by
  intro d c tr s
  cases tr <;> exact ⟨rfl, rfl, rfl, rfl, rfl, rfl, rfl, rfl⟩

/-- Claim C10: GET /reload/lookup with a report containing a new snapshot
stores the snapshot into the shared core and changes nothing else: the
response is the diagnostics and the resulting state differs from the input
state only in `shared_core` — so `config_version` is not incremented and no
`ReloadSettings` message is sent. -/
theorem c10_reload_lookup_swaps_silently :
    ∀ (d c : Nat) (tr : Option Nat) (dry_run send_ok : Bool) (s : ServerState),
      handle_manage_reload true HMethod.GET (some "lookup")
          (Except.ok { config := d, new_core := some c, tracers := tr }) dry_run send_ok s
        = (Except.ok d, { s with shared_core := c }) := by
  intro d c tr dry_run send_ok s
  rfl

end Reload

namespace Sieve

/-- Claim C3, counterexample: on an account whose script count has reached
`max_scripts` (here 0 scripts with `max_scripts = 0`), a creation is not
rejected: the guard `sieve_ids.len() <= max_scripts` passes, the script is
created and the count becomes `max_scripts + 1`. -/
theorem c3_quota_counterexample :
    (sieve_process_creates 0 [true] [] 0).2.2 = [CreateResult.created 0]
    ∧ (sieve_process_creates 0 [true] [] 0).1 = [0]
    ∧ (sieve_process_creates 0 [true] [] 0).2.2 ≠ [CreateResult.overQuota] := by
  decide

/-- Claim C3, amended: a creation is rejected with `OverQuota` (adding no
script) when the account's script count already exceeds `max_scripts`; a
creation at exactly `max_scripts` still succeeds, so after any sequence of
creates the per-account script count never exceeds
`max(initial count, max_scripts + 1)` — in particular, starting at or below
the quota it can reach, but never exceed, `max_scripts + 1`. -/
theorem c3_create_quota_bound (m : Nat) (items : List Bool) (ids : List Nat) (n : Nat) :
    (sieve_process_creates m items ids n).1.length ≤ max ids.length (m + 1)
    ∧ (m < ids.length →
        (sieve_process_creates m items ids n).1 = ids
        ∧ ((sieve_process_creates m items ids n).2.2.all
            fun r => r == CreateResult.overQuota) = true) := by
  induction items generalizing ids n with
  | nil =>
    exact ⟨Nat.le_max_left _ _, fun _ => ⟨rfl, rfl⟩⟩
  | cons item_ok rest ih =>
    constructor
    · by_cases hle : ids.length ≤ m
      · cases item_ok with
        | false =>
          simpa [sieve_process_creates, hle] using (ih ids n).1
        | true =>
          have h1 := (ih (ids ++ [n]) (n + 1)).1
          simp only [List.length_append, List.length_singleton] at h1
          have h2 : max (ids.length + 1) (m + 1) = m + 1 :=
            Nat.max_eq_right (Nat.succ_le_succ hle)
          rw [h2] at h1
          simpa [sieve_process_creates, hle] using le_trans h1 (le_max_right _ _)
      · simpa [sieve_process_creates, hle] using (ih ids n).1
    · intro hgt
      have hle : ¬ ids.length ≤ m := by omega
      obtain ⟨hids, hall⟩ := (ih ids n).2 hgt
      simp [sieve_process_creates, hle, hids, hall]

/-- Claim C3, witness: with one existing script and `max_scripts = 0` the
count exceeds the quota, so a further create is rejected, the id set is
unchanged, and the bound holds. -/
theorem c3_create_quota_bound_witness :
    (sieve_process_creates 0 [true] [7] 1).1 = [7]
    ∧ ((sieve_process_creates 0 [true] [7] 1).2.2.all
        fun r => r == CreateResult.overQuota) = true
    ∧ (sieve_process_creates 0 [true] [7] 1).1.length ≤ max ([7] : List Nat).length (0 + 1) := by
  have h := c3_create_quota_bound 0 [true] [7] 1
  exact ⟨(h.2 (by decide)).1, (h.2 (by decide)).2, h.1⟩

/-- Claim C7: activating an id that is already among the currently active
scripts returns the empty change list and leaves the store untouched — the
function returns before any batch is built, whatever the store's commit
verdict would have been. -/
theorem c7_sieve_activate_idempotent (store : SieveStore) (id : Nat)
    (commit : CommitOutcome) (h : (active_ids store).contains id = true) :
    sieve_activate_script store (some id) commit = (Except.ok [], store) := by
  have hb : already_active store (some id) = true := h
  unfold sieve_activate_script
  rw [hb]
  simp

/-- Store with a single active script, document id 3. -/
def c7_store : SieveStore :=
  [(3, { value := some { isActive := true, name := "a" }, emailIds := some [] })]

/-- Claim C7, witness: activating the already-active document 3 returns the
empty change list and an unchanged store, even under a failing commit
verdict. -/
theorem c7_sieve_activate_idempotent_witness :
    (active_ids c7_store).contains 3 = true
    ∧ sieve_activate_script c7_store (some 3) CommitOutcome.otherError
        = (Except.ok [], c7_store) :=
  ⟨by decide, c7_sieve_activate_idempotent c7_store 3 CommitOutcome.otherError (by decide)⟩

/-- Claim C8: when `sieve_activate_script` actually commits its non-empty
batch (no early idempotent return, non-empty `changed_ids`), an
`AssertValueFailed` commit yields `Ok` with the empty changed set, any other
store error yields `ServerPartialFail`, and the non-empty changed list is
returned exactly when the commit succeeded. -/
theorem c8_sieve_activate_commit_outcomes (store : SieveStore) (activate_id : Option Nat)
    (h1 : already_active store activate_id = false)
    (h2 : (changed_ids store activate_id).isEmpty = false) :
    sieve_activate_script store activate_id CommitOutcome.assertFailed = (Except.ok [], store)
    ∧ sieve_activate_script store activate_id CommitOutcome.otherError
        = (Except.error MethodError.serverPartialFail, store)
    ∧ (sieve_activate_script store activate_id CommitOutcome.success).1
        = Except.ok (changed_ids store activate_id)
    ∧ changed_ids store activate_id ≠ [] := by
  refine ⟨?_, ?_, ?_, ?_⟩
  · unfold sieve_activate_script
    rw [h1]
    simp [h2]
  · unfold sieve_activate_script
    rw [h1]
    simp [h2]
  · unfold sieve_activate_script
    rw [h1]
    simp [h2]
  · intro hc
    rw [hc] at h2
    simp at h2

/-- Store with a single active script, document id 0. -/
def c8_store : SieveStore :=
  [(0, { value := some { isActive := true, name := "b" }, emailIds := some [] })]

/-- Claim C8, witness: deactivate-all on a store with one active script
commits a batch with `changed_ids = [(0, false)]`; the three commit verdicts
produce exactly the claimed outcomes. -/
theorem c8_sieve_activate_commit_outcomes_witness :
    already_active c8_store none = false
    ∧ (changed_ids c8_store none).isEmpty = false
    ∧ sieve_activate_script c8_store none CommitOutcome.assertFailed = (Except.ok [], c8_store)
    ∧ sieve_activate_script c8_store none CommitOutcome.otherError
        = (Except.error MethodError.serverPartialFail, c8_store)
    ∧ (sieve_activate_script c8_store none CommitOutcome.success).1
        = Except.ok (changed_ids c8_store none) := by
  have h := c8_sieve_activate_commit_outcomes c8_store none (by decide) (by decide)
  exact ⟨by decide, by decide, h.1, h.2.1, h.2.2.1⟩

/-- Claim C9: one destroy iteration behaves by cases — an id outside the
account's script set is rejected `NotFound`; an active script is rejected
`ScriptIsActive` with the store and blobs untouched; otherwise the document
is removed (which clears its `Value` and `EmailIds`), the linked blob is
deleted when the blob delete succeeds and silently kept when it fails, and
the id is reported destroyed.  The second conjunct characterizes the
deletion: exactly the entries of other document ids remain. -/
theorem c9_sieve_destroy_cases (sieve_ids : List Nat) (store : SieveStore)
    (blobs : List Nat) (blob_ok : Bool) (id : Nat) :
    sieve_process_destroy sieve_ids store blobs blob_ok id
      = (if sieve_ids.contains id then
           if is_active_doc store id then (DestroyResult.scriptIsActive, store, blobs)
           else (DestroyResult.destroyed, store.filter (fun p => p.1 != id),
                 if blob_ok then blobs.filter (fun b => b != id) else blobs)
         else (DestroyResult.notFound, store, blobs))
    ∧ (∀ p : Nat × DocProps,
        p ∈ store.filter (fun q => q.1 != id) ↔ (p ∈ store ∧ p.1 ≠ id)) := by
  constructor
  · rfl
  · intro p
    simp [List.mem_filter, bne_iff_ne]

end Sieve
